import Mathlib

/-!
Verification development for the options-chain aggregation pipeline of
`backend/server.js` (Express server of the OptionsAIProbability repository).

The JavaScript code is shallowly embedded:
* finite JavaScript numbers are modelled as rationals (`ℚ`); the IEEE special
  values `NaN` / `±Infinity` are modelled explicitly by the `JSNum` type for
  the two standalone percent-change helpers, whose guard behaviour on
  non-finite input is under scrutiny (finite arithmetic is kept exact over
  `ℚ`: binary rounding, overflow and the sign of zero are not modelled, and
  no statement below depends on them);
* optional / possibly-`undefined` fields become `Option`;
* JavaScript truthiness tests (`if (x)`, `!x`, `x || 0`) on numbers are
  modelled as "present and non-zero" (`qTruthy`), on strings as "present and
  non-empty" (`strTruthy`);
* each upstream HTTP response is a value of the request `World`: `none`
  stands for a non-ok response, `some r` for an ok response with payload `r`;
  the snapshot feed is a total function from page index to page, and the
  handler follows continuation cursors exactly as the `while` loop does;
* the route handler `GET /api/options` becomes `optionsHandler`, returning
  the handler outcome together with the number of upstream requests issued.
-/

/-! ## JavaScript truthiness on modelled values -/

/-- Truthiness of an optional number: `undefined`/`null` and `0` are falsy. -/
def qTruthy : Option ℚ → Bool
  | none => false
  | some x => decide (x ≠ 0)

/-- Truthiness of an optional string: `undefined`/`null` and `""` are falsy. -/
def strTruthy : Option String → Bool
  | none => false
  | some s => decide (s ≠ "")

/-- Model of `String.prototype.toLowerCase` (ASCII case folding; the
contract-type strings the server compares are ASCII). -/
def jsToLower (s : String) : String := String.mk (s.data.map Char.toLower)

/-- The value of a JavaScript number variable as `JSON.stringify` sees it:
`undefined`, `null`, or a (finite) number.  The distinction matters for
serialisation only — `JSON.stringify` keeps a `null`-valued object member
but drops an `undefined`-valued one — while `undefined`, `null` and `0` are
all equally falsy. -/
inductive JSVal where
  | undef : JSVal
  | null : JSVal
  | num : ℚ → JSVal
deriving DecidableEq

/-- Truthiness of a `JSVal`: `undefined`, `null` and `0` are falsy. -/
def jsvTruthy : JSVal → Bool
  | JSVal.num q => decide (q ≠ 0)
  | _ => false

/-- The optional-number view of a `JSVal` used by the ℚ-level model, which
does not need the `undefined` / `null` distinction. -/
def jsValToOption : JSVal → Option ℚ
  | JSVal.num q => some q
  | _ => none

/-- Reading an optional payload field into a JS variable: an absent field
stores `undefined` in the variable. -/
def jsValOfField : Option ℚ → JSVal
  | some q => JSVal.num q
  | none => JSVal.undef

/-! ## JavaScript numbers with IEEE special values

Used to embed `calculatePercentChange` / `calculateToBreakeven`
(`server.js` lines 53–63) faithfully on non-finite input. -/

/-- A JavaScript number: `NaN`, a signed infinity (`inf true` is `+∞`),
or a finite value modelled exactly as a rational. -/
inductive JSNum where
  | nan : JSNum
  | inf : Bool → JSNum
  | num : ℚ → JSNum
deriving DecidableEq

/-- JavaScript subtraction on `JSNum` (IEEE special-value propagation;
finite case exact over `ℚ`). -/
def jsSub : JSNum → JSNum → JSNum
  | JSNum.nan, _ => JSNum.nan
  | _, JSNum.nan => JSNum.nan
  | JSNum.inf s, JSNum.inf t => if s = t then JSNum.nan else JSNum.inf s
  | JSNum.inf s, JSNum.num _ => JSNum.inf s
  | JSNum.num _, JSNum.inf t => JSNum.inf (!t)
  | JSNum.num a, JSNum.num b => JSNum.num (a - b)

/-- JavaScript division on `JSNum` (IEEE special-value propagation; the sign
of zero is not modelled, so `x / ±∞` is plain `0`). -/
def jsDiv : JSNum → JSNum → JSNum
  | JSNum.nan, _ => JSNum.nan
  | _, JSNum.nan => JSNum.nan
  | JSNum.inf _, JSNum.inf _ => JSNum.nan
  | JSNum.inf s, JSNum.num b => if b = 0 then JSNum.inf s else JSNum.inf (s == decide (0 < b))
  | JSNum.num _, JSNum.inf _ => JSNum.num 0
  | JSNum.num a, JSNum.num b =>
    if b = 0 then (if a = 0 then JSNum.nan else JSNum.inf (decide (0 < a)))
    else JSNum.num (a / b)

/-- JavaScript multiplication on `JSNum`. -/
def jsMul : JSNum → JSNum → JSNum
  | JSNum.nan, _ => JSNum.nan
  | _, JSNum.nan => JSNum.nan
  | JSNum.inf s, JSNum.inf t => JSNum.inf (s == t)
  | JSNum.inf s, JSNum.num b => if b = 0 then JSNum.nan else JSNum.inf (s == decide (0 < b))
  | JSNum.num a, JSNum.inf t => if a = 0 then JSNum.nan else JSNum.inf (t == decide (0 < a))
  | JSNum.num a, JSNum.num b => JSNum.num (a * b)

/-- JavaScript truthiness of a number value: `0` and `NaN` are falsy,
infinities are truthy. -/
def jsFalsy : JSNum → Bool
  | JSNum.nan => true
  | JSNum.inf _ => false
  | JSNum.num a => decide (a = 0)

/-- The function `calculatePercentChange` (`server.js` lines 53–57) over `JSNum`:
`if (!previous || previous === 0) return 0; return ((current - previous) / previous) * 100;` -/
def calculatePercentChangeJS (current previous : JSNum) : JSNum :=
  if jsFalsy previous = true ∨ previous = JSNum.num 0 then JSNum.num 0
  else jsMul (jsDiv (jsSub current previous) previous) (JSNum.num 100)

/-- The function `calculateToBreakeven` (`server.js` lines 59–63) over `JSNum`:
`if (!currentPrice || currentPrice === 0) return 0; return ((breakevenPrice - currentPrice) / currentPrice) * 100;` -/
def calculateToBreakevenJS (currentPrice breakevenPrice : JSNum) : JSNum :=
  if jsFalsy currentPrice = true ∨ currentPrice = JSNum.num 0 then JSNum.num 0
  else jsMul (jsDiv (jsSub breakevenPrice currentPrice) currentPrice) (JSNum.num 100)

/-! ## The arithmetic helpers over finite values (ℚ) -/

/-- The function `calculateBreakevenCall` (`server.js` lines 44–46). -/
def calculateBreakevenCall (strikePrice optionPrice : ℚ) : ℚ :=
  strikePrice + optionPrice

/-- The function `calculateBreakevenPut` (`server.js` lines 49–51). -/
def calculateBreakevenPut (strikePrice optionPrice : ℚ) : ℚ :=
  strikePrice - optionPrice

/-- The function `calculatePercentChange` (`server.js` lines 54–57) restricted to finite
values: the guard `!previous || previous === 0` reduces to `previous = 0`. -/
def calculatePercentChange (current previous : ℚ) : ℚ :=
  if previous = 0 then 0 else ((current - previous) / previous) * 100

/-- The function `calculateToBreakeven` (`server.js` lines 60–63) restricted to finite
values. -/
def calculateToBreakeven (currentPrice breakevenPrice : ℚ) : ℚ :=
  if currentPrice = 0 then 0 else ((breakevenPrice - currentPrice) / currentPrice) * 100

/-! ## Data model (provider payloads and the enriched output record) -/

/-- One bar from the previous-day aggregate endpoint
(`/v2/aggs/ticker/{ticker}/prev`): the handler reads `results[0].bp` and
`results[0].c` (`server.js` lines 93–97). -/
structure PrevBar where
  bp : Option ℚ := none
  c : Option ℚ := none
deriving DecidableEq

/-- The field `snapshotData.ticker.lastQuote` of the stock snapshot endpoint: the
handler reads `bp` (`server.js` line 111). -/
structure LastQuote where
  bp : Option ℚ := none
deriving DecidableEq

/-- The field `snapshotData.ticker` of the stock snapshot endpoint.  The provider also
supplies a last-trade price (`lastTrade.p`); it is carried here so that
theorems can speak about it, but `server.js` never reads it. -/
structure SnapTicker where
  lastQuote : Option LastQuote := none
  dayC : Option ℚ := none
  lastTradeP : Option ℚ := none
deriving DecidableEq

/-- Body of the stock snapshot endpoint response (`snapshotData`). -/
structure StockSnapData where
  ticker : Option SnapTicker := none
deriving DecidableEq

/-- One contract from the reference contracts endpoint: the handler reads
`ticker` and `strike_price` (`server.js` lines 144, 161, 259). -/
structure ContractRec where
  ticker : String
  strike_price : ℚ
deriving DecidableEq

/-- The per-contract day bar of an option snapshot (`option.day`). -/
structure OptionDay where
  open_ : Option ℚ := none
  high : Option ℚ := none
  low : Option ℚ := none
  close : Option ℚ := none
  bid : Option ℚ := none
  ask : Option ℚ := none
  previous_close : Option ℚ := none
  volume : Option ℚ := none
deriving DecidableEq

/-- Greeks of an option snapshot (`option.greeks`). -/
structure Greeks where
  delta : Option ℚ := none
  gamma : Option ℚ := none
  theta : Option ℚ := none
  vega : Option ℚ := none
deriving DecidableEq

/-- The field `option.details` of an option snapshot. -/
structure OptionDetails where
  ticker : String
  strike_price : ℚ
  expiration_date : String
  contract_type : String
deriving DecidableEq

/-- One result of the option snapshot feed. -/
structure OptionSnapshot where
  details : OptionDetails
  day : OptionDay := {}
  open_interest : Option ℚ := none
  implied_volatility : Option ℚ := none
  greeks : Option Greeks := none
deriving DecidableEq

/-- One page of the paginated option snapshot feed: `ok` is the HTTP success
flag, `results` the page payload, `hasNext` whether a `next_url`
continuation cursor is present. -/
structure SnapshotPage where
  ok : Bool := true
  results : List OptionSnapshot := []
  hasNext : Bool := false

/-- The enriched output record built at `server.js` lines 365–387. -/
structure EnrichedOption where
  strikePrice : ℚ
  optionPrice : ℚ
  askPrice : ℚ
  bidPrice : Option ℚ
  breakeven : ℚ
  toBreakeven : ℚ
  priceChange : ℚ
  percentChange : ℚ
  open_ : ℚ
  high : ℚ
  low : ℚ
  volume : ℚ
  openInterest : ℚ
  impliedVolatility : ℚ
  delta : ℚ
  gamma : ℚ
  theta : ℚ
  vega : ℚ
  ticker : String
  expirationDate : String
  contractType : String
deriving DecidableEq

/-- The query parameters of `GET /api/options`; `none` models an absent
parameter. -/
structure ReqQuery where
  ticker : Option String := none
  expirationDate : Option String := none
  contractType : Option String := none

/-- The upstream world one request sees: each field is the response of one
provider endpoint (`none` = non-ok HTTP status), and `pages i` is the page
the snapshot feed serves for the `i`-th request of the cursor chain. -/
structure World where
  prevResp : Option (List PrevBar) := none
  stockSnapResp : Option StockSnapData := none
  contractsResp : Option (List ContractRec) := none
  pages : Nat → SnapshotPage := fun _ => {}

/-- Outcome of the `GET /api/options` handler before JSON rendering. -/
inductive HandlerResult where
  | badRequest : HandlerResult
  | noApiKey : HandlerResult
  | upstreamError : HandlerResult
  | success : List EnrichedOption → JSVal → Bool → HandlerResult
deriving DecidableEq

/-- A JSON value, used to state what the rendered response bodies contain. -/
inductive Json where
  | null : Json
  | bool : Bool → Json
  | num : ℚ → Json
  | str : String → Json
  | arr : List Json → Json
  | obj : List (String × Json) → Json

/-! ## Sorting (model of `Array.prototype.sort` with a numeric comparator)

`server.js` sorts with comparators of the shape `(a, b) => a.k - b.k`
(ascending) or `(a, b) => b.k - a.k` (descending).  We model the result of
such a sort with an insertion sort parametrised by a boolean total preorder.
Stability is not modelled; no claim depends on the relative order of
elements with equal keys. -/

/-- Insert `x` into `l`, keeping `l` sorted with respect to `le`. -/
def insertLE {α : Type} (le : α → α → Bool) (x : α) : List α → List α
  | [] => [x]
  | y :: ys => if le x y then x :: y :: ys else y :: insertLE le x ys

/-- Insertion sort with respect to the boolean preorder `le`. -/
def sortLE {α : Type} (le : α → α → Bool) : List α → List α
  | [] => []
  | x :: xs => insertLE le x (sortLE le xs)

/-- Sort descending by a rational key (`(a, b) => b.k - a.k`). -/
def sortDescBy {α : Type} (key : α → ℚ) (l : List α) : List α :=
  sortLE (fun a b => decide (key b ≤ key a)) l

/-- Sort ascending by a rational key (`(a, b) => a.k - b.k`). -/
def sortAscBy {α : Type} (key : α → ℚ) (l : List α) : List α :=
  sortLE (fun a b => decide (key a ≤ key b)) l

/-- Sort a list of rationals ascending (`(a, b) => a - b`). -/
def sortAscQ (l : List ℚ) : List ℚ := sortAscBy (fun x => x) l

/-- Sort a list of rationals descending (`(a, b) => b - a`). -/
def sortDescQ (l : List ℚ) : List ℚ := sortDescBy (fun x => x) l

/-! ## Pipeline stages of `GET /api/options` -/

/-- The function `getOptionPrice` (`server.js` lines 36–41): bid if the market is open and
a bid is present (even a zero bid), otherwise `day.close || 0`. -/
def getOptionPrice (day : OptionDay) (marketOpen : Bool) : ℚ :=
  if marketOpen && day.bid.isSome then day.bid.getD 0
  else day.close.getD 0

/-- Underlying price taken from the previous-day aggregate endpoint
(`server.js` lines 92–99): with results present, `bp` if the market is open
and `bp` is present, else `c`. -/
def primaryUnderlyingPrice (marketOpen : Bool) (prev : Option (List PrevBar)) : Option ℚ :=
  match prev with
  | some (bar :: _) => if marketOpen && bar.bp.isSome then bar.bp else bar.c
  | _ => none

/-- The whole underlying-price resolution (`server.js` lines 82–121): the
previous-day aggregate first; if the outcome is falsy (`!underlyingPrice`),
the stock snapshot endpoint: `lastQuote.bp` when the market is open and the
bid is truthy, else a truthy `day.c`.  The snapshot's last-trade price is
never consulted. -/
def resolveUnderlyingPrice (marketOpen : Bool) (prev : Option (List PrevBar))
    (snap : Option StockSnapData) : Option ℚ :=
  let up1 := primaryUnderlyingPrice marketOpen prev
  if qTruthy up1 then up1
  else
    match snap with
    | some d =>
      match d.ticker with
      | some t =>
        match t.lastQuote with
        | some q =>
          if marketOpen && qTruthy q.bp then q.bp
          else if qTruthy t.dayC then t.dayC
          else up1
        | none => up1
      | none => up1
    | none => up1

/-- The `underlyingPrice` variable after the previous-day aggregate stage
(`server.js` lines 83–99), tracked as the JS value it holds: it starts as
`null` and is only reassigned when the response is ok with a non-empty
`results` — in which case an absent `results[0].c` stores `undefined`. -/
def primaryUnderlyingPriceVal (marketOpen : Bool) (prev : Option (List PrevBar)) : JSVal :=
  match prev with
  | some (bar :: _) =>
    if marketOpen && bar.bp.isSome then jsValOfField bar.bp
    else jsValOfField bar.c
  | _ => JSVal.null

/-- The `underlyingPrice` variable after the whole resolution
(`server.js` lines 82–121), tracked as the JS value it holds.  This is the
same resolution as `resolveUnderlyingPrice` (see
`resolveUnderlyingPriceVal_toOption`), additionally distinguishing the
initial `null` from an assigned `undefined` (`results[0].c` absent, fallback
not reassigning) — the distinction `JSON.stringify` observes in `res.json`. -/
def resolveUnderlyingPriceVal (marketOpen : Bool) (prev : Option (List PrevBar))
    (snap : Option StockSnapData) : JSVal :=
  let up1 := primaryUnderlyingPriceVal marketOpen prev
  if jsvTruthy up1 then up1
  else
    match snap with
    | some d =>
      match d.ticker with
      | some t =>
        match t.lastQuote with
        | some q =>
          if marketOpen && qTruthy q.bp then jsValOfField q.bp
          else if qTruthy t.dayC then jsValOfField t.dayC
          else up1
        | none => up1
      | none => up1
    | none => up1

/-- The strike window around a known price (`server.js` lines 151–156):
strikes strictly below the price sorted descending, first 10; strikes at or
above the price sorted ascending, first 10; the union sorted ascending. -/
def windowStrikes (allStrikes : List ℚ) (price : ℚ) : List ℚ :=
  let strikesBelow := sortDescQ (allStrikes.filter (fun s => decide (s < price)))
  let strikesAtOrAbove := sortAscQ (allStrikes.filter (fun s => decide (price ≤ s)))
  let selectedBelow := strikesBelow.take 10
  let selectedAbove := strikesAtOrAbove.take 10
  sortAscQ (selectedBelow ++ selectedAbove)

/-- The strike-window selection as guarded in the handler
(`server.js` lines 150–163 and 406–444): the window applies only when the
resolved price is truthy (`if (underlyingPrice)`), so a `null` — or zero —
price lets the full strike set pass through unchanged. -/
def selectTargetStrikes (allStrikes : List ℚ) (price : Option ℚ) : List ℚ :=
  match price with
  | some p => if p = 0 then allStrikes else windowStrikes allStrikes p
  | none => allStrikes

/-- Contract-catalog processing (`server.js` lines 135–168): non-ok or empty
responses leave `allContracts` empty; with a truthy resolved price the
contracts are filtered to the target strike window. -/
def contractsAfterWindow (resp : Option (List ContractRec)) (up : Option ℚ) :
    List ContractRec :=
  match resp with
  | none => []
  | some results =>
    if results.length = 0 then []
    else
      match up with
      | some p =>
        if p = 0 then results
        else
          let allStrikes := sortAscQ (results.map (fun c => c.strike_price))
          let targetStrikes := windowStrikes allStrikes p
          results.filter (fun c => decide (c.strike_price ∈ targetStrikes))
      | none => results

/-- The constant `maxPages` (`server.js` line 181): the hard page ceiling of the
pagination loop. -/
def maxPages : Nat := 100

/-- The pagination loop (`server.js` lines 184–222): starting at page `i`
with `fuel` loop iterations left, fetch the page; a non-ok page throws
(`Except.error`); otherwise accumulate its results and continue exactly when
a continuation cursor is present.  The second component counts the page
requests issued. -/
def pagGo (pages : Nat → SnapshotPage) : Nat → Nat → Except Unit (List OptionSnapshot) × Nat
  | _, 0 => (Except.ok [], 0)
  | i, fuel + 1 =>
    let p := pages i
    if p.ok = false then (Except.error (), 1)
    else if p.hasNext = true then
      match pagGo pages (i + 1) fuel with
      | (Except.ok rest, n) => (Except.ok (p.results ++ rest), n + 1)
      | (Except.error e, n) => (Except.error e, n + 1)
    else (Except.ok p.results, 1)

/-- The full pagination run of the handler: starts at the base snapshot URL
(page 0) with the `maxPages` ceiling. -/
def paginateSnapshots (pages : Nat → SnapshotPage) : Except Unit (List OptionSnapshot) × Nat :=
  pagGo pages 0 maxPages

/-- The snapshots accumulated from the first `n` pages of the feed, in feed
order. -/
def firstPagesResults (pages : Nat → SnapshotPage) (n : Nat) : List OptionSnapshot :=
  ((List.range n).map (fun i => (pages i).results)).flatten

/-- The contract identities (details.ticker) of a list of snapshots. -/
def snapshotKeys (l : List OptionSnapshot) : List String :=
  l.map (fun o => o.details.ticker)

/-- Snapshot filtering (`server.js` lines 253–282): with a non-empty target
contract list, keep snapshots whose contract identity is a target ticker;
otherwise fall back to filtering by expiration date and (lower-cased)
contract type. -/
def filterSnapshots (results : List OptionSnapshot) (allContracts : List ContractRec)
    (expirationDate contractType : String) : List OptionSnapshot :=
  if results.length = 0 then []
  else if allContracts.length ≠ 0 then
    results.filter (fun o => allContracts.any (fun c => c.ticker == o.details.ticker))
  else
    results.filter (fun o =>
      o.details.expiration_date == expirationDate &&
        jsToLower o.details.contract_type == jsToLower contractType)

/-- The enrichment step (`server.js` lines 336–388), branching on the
lower-cased requested contract type for the breakeven formula. -/
def enrichOption (contractType : String) (marketOpen : Bool) (underlyingPrice : Option ℚ)
    (opt : OptionSnapshot) : EnrichedOption :=
  let strikePrice := opt.details.strike_price
  let optionPrice := getOptionPrice opt.day marketOpen
  let askPrice := if opt.day.ask.isSome then opt.day.ask.getD 0 else opt.day.close.getD 0
  let bidPrice := opt.day.bid
  let previousClose := opt.day.previous_close.getD 0
  let breakeven :=
    if jsToLower contractType = "call" then calculateBreakevenCall strikePrice optionPrice
    else calculateBreakevenPut strikePrice optionPrice
  let toBreakeven :=
    match underlyingPrice with
    | some p => if p = 0 then 0 else calculateToBreakeven p breakeven
    | none => 0
  { strikePrice := strikePrice
    optionPrice := optionPrice
    askPrice := askPrice
    bidPrice := bidPrice
    breakeven := breakeven
    toBreakeven := toBreakeven
    priceChange := optionPrice - previousClose
    percentChange := calculatePercentChange optionPrice previousClose
    open_ := opt.day.open_.getD 0
    high := opt.day.high.getD 0
    low := opt.day.low.getD 0
    volume := opt.day.volume.getD 0
    openInterest := opt.open_interest.getD 0
    impliedVolatility := opt.implied_volatility.getD 0
    delta := (opt.greeks.bind Greeks.delta).getD 0
    gamma := (opt.greeks.bind Greeks.gamma).getD 0
    theta := (opt.greeks.bind Greeks.theta).getD 0
    vega := (opt.greeks.bind Greeks.vega).getD 0
    ticker := opt.details.ticker
    expirationDate := opt.details.expiration_date
    contractType := opt.details.contract_type }

/-- Re-windowing of the enriched options around a truthy price
(`server.js` lines 423–437): up to 10 strikes below and 10 at or above the
price, combined and sorted descending by strike. -/
def windowEnriched (opts : List EnrichedOption) (p : ℚ) : List EnrichedOption :=
  let strikesBelow := sortDescBy (fun o => o.strikePrice)
    (opts.filter (fun o => decide (o.strikePrice < p)))
  let strikesAtOrAbove := sortAscBy (fun o => o.strikePrice)
    (opts.filter (fun o => decide (p ≤ o.strikePrice)))
  let selectedBelow := strikesBelow.take 10
  let selectedAbove := strikesAtOrAbove.take 10
  sortDescBy (fun o => o.strikePrice) (selectedBelow ++ selectedAbove)

/-- Tail of the pipeline on a non-empty filtered snapshot list
(`server.js` lines 287–289 and 336–444): sort the filtered snapshots
descending by strike, enrich, sort the enriched list descending by strike,
and re-window when the resolved price is truthy. -/
def finalizeOptions (contractType : String) (marketOpen : Bool) (up : Option ℚ)
    (filteredOptions : List OptionSnapshot) : List EnrichedOption :=
  let sortedFiltered := sortDescBy (fun o => o.details.strike_price) filteredOptions
  let enriched := sortedFiltered.map (enrichOption contractType marketOpen up)
  let enrichedSorted := sortDescBy (fun e => e.strikePrice) enriched
  match up with
  | some p =>
    if p ≠ 0 ∧ enrichedSorted.length ≠ 0 then windowEnriched enrichedSorted p
    else enrichedSorted
  | none => enrichedSorted

/-- The `GET /api/options` route handler (`server.js` lines 66–456),
returning the handler outcome and the number of upstream requests issued.
The parameter guard and API-key guard return before any upstream request;
the underlying-price stage issues one request, plus a second one exactly
when the primary outcome is falsy (`server.js` line 103); the contracts
endpoint is one request; the pagination loop issues one request per page. -/
def optionsHandler (q : ReqQuery) (apiKey : Option String) (marketOpen : Bool)
    (w : World) : HandlerResult × Nat :=
  if strTruthy q.ticker = false ∨ strTruthy q.expirationDate = false ∨
      strTruthy q.contractType = false then
    (HandlerResult.badRequest, 0)
  else if strTruthy apiKey = false then
    (HandlerResult.noApiKey, 0)
  else
    let upv := resolveUnderlyingPriceVal marketOpen w.prevResp w.stockSnapResp
    let up := resolveUnderlyingPrice marketOpen w.prevResp w.stockSnapResp
    let priceCalls := if qTruthy (primaryUnderlyingPrice marketOpen w.prevResp) then 1 else 2
    let allContracts := contractsAfterWindow w.contractsResp up
    let pag := paginateSnapshots w.pages
    let calls := priceCalls + 1 + pag.2
    match pag.1 with
    | Except.error _ => (HandlerResult.upstreamError, calls)
    | Except.ok allSnapshotResults =>
      let filteredOptions := filterSnapshots allSnapshotResults allContracts
        (q.expirationDate.getD "") (q.contractType.getD "")
      if filteredOptions.length = 0 then
        (HandlerResult.success [] upv marketOpen, calls)
      else
        (HandlerResult.success
          (finalizeOptions (q.contractType.getD "") marketOpen up filteredOptions)
          upv marketOpen, calls)

/-! ## JSON rendering of the handler outcome -/

/-- A number field that the code explicitly assigns `null` when absent
(`bidPrice`, `server.js` lines 344–346), serialised to JSON: an explicit
`null` is kept by `JSON.stringify`. -/
def optJson : Option ℚ → Json
  | none => Json.null
  | some x => Json.num x

/-- The `underlyingPrice` member of the success bodies
(`server.js` lines 327–333 and 446–450) as `JSON.stringify` serialises the
variable: a number or an explicit `null` keeps the key, while an
`undefined`-valued key is dropped from the emitted object. -/
def underlyingPriceField : JSVal → List (String × Json)
  | JSVal.undef => []
  | JSVal.null => [("underlyingPrice", Json.null)]
  | JSVal.num q => [("underlyingPrice", Json.num q)]

/-- JSON serialisation of one enriched option (the object literal of
`server.js` lines 365–387). -/
def enrichedToJson (e : EnrichedOption) : Json :=
  Json.obj
    [("strikePrice", Json.num e.strikePrice),
     ("optionPrice", Json.num e.optionPrice),
     ("askPrice", Json.num e.askPrice),
     ("bidPrice", optJson e.bidPrice),
     ("breakeven", Json.num e.breakeven),
     ("toBreakeven", Json.num e.toBreakeven),
     ("priceChange", Json.num e.priceChange),
     ("percentChange", Json.num e.percentChange),
     ("open", Json.num e.open_),
     ("high", Json.num e.high),
     ("low", Json.num e.low),
     ("volume", Json.num e.volume),
     ("openInterest", Json.num e.openInterest),
     ("impliedVolatility", Json.num e.impliedVolatility),
     ("delta", Json.num e.delta),
     ("gamma", Json.num e.gamma),
     ("theta", Json.num e.theta),
     ("vega", Json.num e.vega),
     ("ticker", Json.str e.ticker),
     ("expirationDate", Json.str e.expirationDate),
     ("contractType", Json.str e.contractType)]

/-- The HTTP status and JSON body the handler sends for each outcome:
the 400/500 error bodies of `server.js` lines 70–79 and 452–455, and the
success bodies of lines 327–333 and 446–450 — built from the object literal
`{options, underlyingPrice, marketOpen}`, of which `JSON.stringify` drops
the `underlyingPrice` key when the variable holds `undefined`. -/
def renderResponse : HandlerResult → Nat × Json
  | HandlerResult.badRequest =>
    (400, Json.obj [("error",
      Json.str "Missing required parameters: ticker, expirationDate, contractType")])
  | HandlerResult.noApiKey =>
    (500, Json.obj [("error", Json.str "API key not configured")])
  | HandlerResult.upstreamError =>
    (500, Json.obj [("error", Json.str "Polygon API error")])
  | HandlerResult.success opts upv mo =>
    (200, Json.obj
      (("options", Json.arr (opts.map enrichedToJson)) ::
        underlyingPriceField upv ++ [("marketOpen", Json.bool mo)]))

/-- The top-level keys of a JSON object. -/
def topKeys : Json → List String
  | Json.obj fields => fields.map (fun f => f.1)
  | _ => []

/-- The options list carried by a successful handler outcome. -/
def successOptions : HandlerResult → List EnrichedOption
  | HandlerResult.success opts _ _ => opts
  | _ => []

/-- Modelled from the spec: the early-exit termination condition of §4.5's
SnapshotPaginator ("stop as soon as every target key has been observed among
accumulated results, even if more pages remain"), stated as a predicate the
claim asserts of the code's pagination run: whenever every target key occurs
among the results of the first `n` fetched pages (`n ≥ 1`), no request for
page `n + 1` is issued. -/
def specEarlyExitStop (pages : Nat → SnapshotPage) (targets : List String) : Prop :=
  ∀ n : Nat, 1 ≤ n →
    (∀ t ∈ targets, t ∈ snapshotKeys (firstPagesResults pages n)) →
    (paginateSnapshots pages).2 ≤ n

/-! ## Concrete inputs used by witnesses and counterexamples -/

/-- A well-formed query: all three parameters present and non-empty. -/
def cQuery : ReqQuery :=
  { ticker := some "AAPL", expirationDate := some "2026-01-09", contractType := some "call" }

/-- A minimal option snapshot with the given identity and strike; every
optional pricing field is absent. -/
def mkSnap (tk : String) (strike : ℚ) (expd ct : String) : OptionSnapshot :=
  { details :=
      { ticker := tk, strike_price := strike, expiration_date := expd, contract_type := ct } }

/-- A world whose previous-day close is 100, with no contracts and an empty
single-page snapshot feed. -/
def cWorld : World :=
  { prevResp := some [{ c := some 100 }],
    pages := fun _ => {} }

/-- A world whose previous-day bar carries no close at all (so the
resolution assigns `undefined`) and whose snapshot fallback is unavailable,
with no contracts and an empty single-page snapshot feed. -/
def cWorldU : World :=
  { prevResp := some [{}],
    pages := fun _ => {} }

/-- A world with an empty catalog and a single snapshot page carrying two
call snapshots for the requested expiration (strikes 100 and 110). -/
def cWorld2 : World :=
  { prevResp := some [{ c := some 100 }],
    pages := fun i =>
      match i with
      | 0 => { results := [mkSnap "O:AAPL1" 100 "2026-01-09" "call",
                           mkSnap "O:AAPL2" 110 "2026-01-09" "call"] }
      | _ => {} }

/-- A two-page snapshot feed: page 0 already contains the only target
contract and carries a continuation cursor; page 1 holds another contract
and ends the feed. -/
def c1pages : Nat → SnapshotPage := fun i =>
  match i with
  | 0 => { results := [mkSnap "O:AAPL1" 100 "2026-01-09" "call"], hasNext := true }
  | 1 => { results := [mkSnap "O:AAPL2" 105 "2026-01-09" "call"] }
  | _ => {}

/-- Stock snapshot data carrying a last-trade price of 101 and a day close
of 100, with a quote present but no bid. -/
def c2Snap : StockSnapData :=
  { ticker := some { lastQuote := some {}, dayC := some 100, lastTradeP := some 101 } }

/-- Eleven strikes, all above zero. -/
def c3Strikes : List ℚ := [1, 2, 3, 4, 5, 6, 7, 8, 9, 10, 11]

/-! ## Helper lemmas about the sorting model -/

theorem mem_insertLE {α : Type} (le : α → α → Bool) (x a : α) :
    ∀ l : List α, (a ∈ insertLE le x l ↔ a = x ∨ a ∈ l)
  | [] => by simp [insertLE]
  | y :: ys => by
    simp only [insertLE]
    split
    · simp
    · rw [List.mem_cons, List.mem_cons, mem_insertLE le x a ys]
      tauto

theorem length_insertLE {α : Type} (le : α → α → Bool) (x : α) :
    ∀ l : List α, (insertLE le x l).length = l.length + 1
  | [] => rfl
  | y :: ys => by
    simp only [insertLE]
    split
    · simp
    · simp [length_insertLE le x ys]

theorem mem_sortLE {α : Type} (le : α → α → Bool) (a : α) :
    ∀ l : List α, (a ∈ sortLE le l ↔ a ∈ l)
  | [] => Iff.rfl
  | x :: xs => by
    simp only [sortLE]
    rw [mem_insertLE, mem_sortLE le a xs, List.mem_cons]

theorem length_sortLE {α : Type} (le : α → α → Bool) :
    ∀ l : List α, (sortLE le l).length = l.length
  | [] => rfl
  | x :: xs => by
    simp only [sortLE]
    rw [length_insertLE, length_sortLE le xs, List.length_cons]

theorem pairwise_insertLE {α : Type} (le : α → α → Bool)
    (htot : ∀ a b, le a b = true ∨ le b a = true)
    (htrans : ∀ a b c, le a b = true → le b c = true → le a c = true) (x : α) :
    ∀ l : List α, l.Pairwise (fun a b => le a b = true) →
      (insertLE le x l).Pairwise (fun a b => le a b = true)
  | [], _ => by simp [insertLE]
  | y :: ys, hp => by
    rw [List.pairwise_cons] at hp
    simp only [insertLE]
    split
    · rw [List.pairwise_cons]
      refine ⟨?_, List.pairwise_cons.mpr hp⟩
      intro b hb
      rcases List.mem_cons.mp hb with hb | hb
      · subst hb; assumption
      · exact htrans x y b (by assumption) (hp.1 b hb)
    · rw [List.pairwise_cons]
      constructor
      · intro b hb
        rcases (mem_insertLE le x b ys).mp hb with hb | hb
        · subst hb
          rcases htot b y with hby | hyb
          · exact absurd hby (by assumption)
          · exact hyb
        · exact hp.1 b hb
      · exact pairwise_insertLE le htot htrans x ys hp.2

theorem pairwise_sortLE {α : Type} (le : α → α → Bool)
    (htot : ∀ a b, le a b = true ∨ le b a = true)
    (htrans : ∀ a b c, le a b = true → le b c = true → le a c = true) :
    ∀ l : List α, (sortLE le l).Pairwise (fun a b => le a b = true)
  | [] => List.Pairwise.nil
  | x :: xs => pairwise_insertLE le htot htrans x (sortLE le xs)
      (pairwise_sortLE le htot htrans xs)

theorem sortDescBy_pairwise {α : Type} (key : α → ℚ) (l : List α) :
    (sortDescBy key l).Pairwise (fun a b => key b ≤ key a) := by
  have h := pairwise_sortLE (fun a b => decide (key b ≤ key a))
    (fun a b => by rcases le_total (key b) (key a) with h | h <;> simp [h])
    (fun a b c hab hbc => by
      simp only [decide_eq_true_eq] at hab hbc ⊢
      exact le_trans hbc hab) l
  exact h.imp (fun hab => by simpa using hab)

theorem mem_sortDescBy {α : Type} (key : α → ℚ) (a : α) (l : List α) :
    a ∈ sortDescBy key l ↔ a ∈ l :=
  mem_sortLE _ a l

theorem mem_sortAscBy {α : Type} (key : α → ℚ) (a : α) (l : List α) :
    a ∈ sortAscBy key l ↔ a ∈ l :=
  mem_sortLE _ a l

theorem length_sortAscBy {α : Type} (key : α → ℚ) (l : List α) :
    (sortAscBy key l).length = l.length :=
  length_sortLE _ l

/-! ## Coherence of the two views of the underlying-price resolution -/

theorem jsValToOption_ofField (o : Option ℚ) : jsValToOption (jsValOfField o) = o := by
  cases o <;> rfl

theorem jsvTruthy_toOption (v : JSVal) : jsvTruthy v = qTruthy (jsValToOption v) := by
  cases v <;> rfl

theorem primaryUnderlyingPriceVal_toOption (mo : Bool) (prev : Option (List PrevBar)) :
    jsValToOption (primaryUnderlyingPriceVal mo prev) = primaryUnderlyingPrice mo prev := by
  unfold primaryUnderlyingPriceVal primaryUnderlyingPrice
  rcases prev with _ | ⟨_ | ⟨bar, rest⟩⟩
  · rfl
  · rfl
  · dsimp only
    split <;> rw [jsValToOption_ofField]

/-- The JS-value view and the optional-number view of the underlying-price
resolution agree: `resolveUnderlyingPriceVal` refines `resolveUnderlyingPrice`
with the `undefined` / `null` distinction only. -/
theorem resolveUnderlyingPriceVal_toOption (mo : Bool) (prev : Option (List PrevBar))
    (snap : Option StockSnapData) :
    jsValToOption (resolveUnderlyingPriceVal mo prev snap) =
      resolveUnderlyingPrice mo prev snap := by
  unfold resolveUnderlyingPriceVal resolveUnderlyingPrice
  rw [← primaryUnderlyingPriceVal_toOption mo prev]
  simp only [← jsvTruthy_toOption]
  cases htv : jsvTruthy (primaryUnderlyingPriceVal mo prev)
  · rcases snap with _ | ⟨_ | t⟩
    · simp [htv]
    · simp [htv]
    · rcases t with ⟨_ | lq, dc, ltp⟩
      · simp [htv]
      · by_cases hbp : (mo && qTruthy lq.bp) = true <;>
          by_cases hdc : qTruthy dc = true <;>
          simp [htv, hbp, hdc, jsValToOption_ofField]
  · simp [htv]

/-! ## Helper lemma about the pagination loop -/

theorem pagGo_pos (pages : Nat → SnapshotPage) (i fuel : Nat) (h : 0 < fuel) :
    1 ≤ (pagGo pages i fuel).2 := by
  match fuel with
  | 0 => exact absurd h (by simp)
  | f + 1 =>
    simp only [pagGo]
    split
    · simp
    · split
      · split
        · simp
        · simp
      · simp

/-! ## Claim theorems -/

/-- C4: for every call snapshot (enriched under a call request), breakeven
equals strikePrice + optionPrice, and for every put snapshot (enriched under
a put request), breakeven equals strikePrice - optionPrice, for all strike
and option prices including zero. -/
theorem c4_breakeven_formulas (ct : String) (mo : Bool) (up : Option ℚ)
    (o : OptionSnapshot) :
    (jsToLower o.details.contract_type = "call" → jsToLower ct = "call" →
      (enrichOption ct mo up o).breakeven =
        (enrichOption ct mo up o).strikePrice + (enrichOption ct mo up o).optionPrice) ∧
    (jsToLower o.details.contract_type = "put" → jsToLower ct = "put" →
      (enrichOption ct mo up o).breakeven =
        (enrichOption ct mo up o).strikePrice - (enrichOption ct mo up o).optionPrice) := by
  constructor
  · intro _ hct
    simp [enrichOption, hct, calculateBreakevenCall]
  · intro _ hct
    have : jsToLower ct ≠ "call" := by rw [hct]; decide
    simp [enrichOption, this, calculateBreakevenPut]

/-- C4 witness: the formulas instantiated at a concrete call snapshot and a
concrete put snapshot with zero option price. -/
theorem c4_breakeven_formulas_witness :
    (enrichOption "call" false none (mkSnap "O:AAPL1" 100 "2026-01-09" "call")).breakeven =
      (enrichOption "call" false none (mkSnap "O:AAPL1" 100 "2026-01-09" "call")).strikePrice +
        (enrichOption "call" false none (mkSnap "O:AAPL1" 100 "2026-01-09" "call")).optionPrice ∧
    (enrichOption "put" false none (mkSnap "O:AAPL3" 100 "2026-01-09" "put")).breakeven =
      (enrichOption "put" false none (mkSnap "O:AAPL3" 100 "2026-01-09" "put")).strikePrice -
        (enrichOption "put" false none (mkSnap "O:AAPL3" 100 "2026-01-09" "put")).optionPrice :=
  ⟨(c4_breakeven_formulas "call" false none (mkSnap "O:AAPL1" 100 "2026-01-09" "call")).1
      (by decide) (by decide),
   (c4_breakeven_formulas "put" false none (mkSnap "O:AAPL3" 100 "2026-01-09" "put")).2
      (by decide) (by decide)⟩

/-- C10: the enrichment branches on the lower-cased requested contract type
only; any requested type whose lower-casing is not exactly "call" — put or
arbitrary — gets the put formula strikePrice - optionPrice, and only a type
lower-casing to "call" gets strikePrice + optionPrice. -/
theorem c10_contract_type_branch (ct : String) (mo : Bool) (up : Option ℚ)
    (o : OptionSnapshot) :
    (jsToLower ct ≠ "call" →
      (enrichOption ct mo up o).breakeven =
        (enrichOption ct mo up o).strikePrice - (enrichOption ct mo up o).optionPrice) ∧
    (jsToLower ct = "call" →
      (enrichOption ct mo up o).breakeven =
        (enrichOption ct mo up o).strikePrice + (enrichOption ct mo up o).optionPrice) := by
  constructor
  · intro hct
    simp [enrichOption, hct, calculateBreakevenPut]
  · intro hct
    simp [enrichOption, hct, calculateBreakevenCall]

/-- C10 witness: a request type "swaption" (not "put") gets the put formula;
a request type "CALL" gets the call formula. -/
theorem c10_contract_type_branch_witness :
    (enrichOption "swaption" false none (mkSnap "O:AAPL1" 100 "2026-01-09" "call")).breakeven =
      (enrichOption "swaption" false none (mkSnap "O:AAPL1" 100 "2026-01-09" "call")).strikePrice -
        (enrichOption "swaption" false none (mkSnap "O:AAPL1" 100 "2026-01-09" "call")).optionPrice ∧
    (enrichOption "CALL" false none (mkSnap "O:AAPL1" 100 "2026-01-09" "call")).breakeven =
      (enrichOption "CALL" false none (mkSnap "O:AAPL1" 100 "2026-01-09" "call")).strikePrice +
        (enrichOption "CALL" false none (mkSnap "O:AAPL1" 100 "2026-01-09" "call")).optionPrice :=
  ⟨(c10_contract_type_branch "swaption" false none
      (mkSnap "O:AAPL1" 100 "2026-01-09" "call")).1 (by decide),
   (c10_contract_type_branch "CALL" false none
      (mkSnap "O:AAPL1" 100 "2026-01-09" "call")).2 (by decide)⟩

/-- C5 counterexample: the claim quantifies over every non-finite base, but
a base of +Infinity passes the guard `!previous || previous === 0` (Infinity
is truthy) and the arithmetic produces NaN, not the zero sentinel. -/
theorem c5_percent_change_cex :
    calculatePercentChangeJS (JSNum.num 1) (JSNum.inf true) = JSNum.nan ∧
    JSNum.nan ≠ JSNum.num 0 := by
  constructor
  · rfl
  · decide

/-- C5 (amended): for every pair whose base is zero or NaN, both
percent-change functions return the zero sentinel; a base of plus or minus
Infinity instead passes the guard and the result is NaN. -/
theorem c5_percent_change_guards :
    (∀ c : JSNum, calculatePercentChangeJS c (JSNum.num 0) = JSNum.num 0 ∧
      calculatePercentChangeJS c JSNum.nan = JSNum.num 0) ∧
    (∀ c : JSNum, calculateToBreakevenJS (JSNum.num 0) c = JSNum.num 0 ∧
      calculateToBreakevenJS JSNum.nan c = JSNum.num 0) ∧
    (∀ (x : ℚ) (s : Bool), calculatePercentChangeJS (JSNum.num x) (JSNum.inf s) = JSNum.nan) ∧
    (∀ (x : ℚ) (s : Bool), calculateToBreakevenJS (JSNum.inf s) (JSNum.num x) = JSNum.nan) := by
  refine ⟨fun c => ⟨?_, ?_⟩, fun c => ⟨?_, ?_⟩, fun x s => ?_, fun x s => ?_⟩ <;>
    simp [calculatePercentChangeJS, calculateToBreakevenJS, jsFalsy, jsSub, jsDiv, jsMul]

/-- Replace the last-trade price carried by a stock snapshot payload,
leaving every field the resolution reads untouched. -/
def setLastTrade (d : StockSnapData) (lt : Option ℚ) : StockSnapData :=
  { ticker := d.ticker.map (fun t => { t with lastTradeP := lt }) }

/-- C2 counterexample: with `lastTrade = 101`, `dayClose = 100`,
`marketOpen = false` (and the previous-day aggregate unavailable), the
resolution of `server.js` lines 82–121 yields 100 — the day close — not the
101 the claim's ladder demands. -/
theorem c2_price_ladder_cex :
    resolveUnderlyingPrice false none (some c2Snap) = some 100 ∧
    resolveUnderlyingPrice false none (some c2Snap) ≠ some 101 := by
  constructor
  · rfl
  · decide

/-- C2 (amended): the resolver never consults the last-trade price (its
outcome is invariant under replacing it), and with the market closed, the
previous-day source unavailable, and a quote present without a usable bid,
a non-zero snapshot day close resolves to that day close: in particular
`lastTrade = 101, dayClose = 100, marketOpen = false` resolves to 100, and
`lastTrade = dayClose = 100` resolves to 100. -/
theorem c2_price_resolution :
    (∀ (mo : Bool) (prev : Option (List PrevBar)) (d : StockSnapData) (lt : Option ℚ),
      resolveUnderlyingPrice mo prev (some (setLastTrade d lt)) =
        resolveUnderlyingPrice mo prev (some d)) ∧
    (∀ (c : ℚ) (lt : Option ℚ), c ≠ 0 →
      resolveUnderlyingPrice false none
        (some { ticker := some { lastQuote := some {}, dayC := some c, lastTradeP := lt } }) =
        some c) := by
  constructor
  · intro mo prev d lt
    rcases d with ⟨tk⟩
    rcases tk with _ | ⟨lq, dc, ltp⟩
    · rfl
    · rfl
  · intro c lt hc
    simp [resolveUnderlyingPrice, primaryUnderlyingPrice, qTruthy, hc]

/-- C2 witness: both parts instantiated — replacing the last-trade price of
the concrete snapshot changes nothing, and a day close of 100 resolves to
100. -/
theorem c2_price_resolution_witness :
    resolveUnderlyingPrice false none (some (setLastTrade c2Snap (some 999))) =
      resolveUnderlyingPrice false none (some c2Snap) ∧
    resolveUnderlyingPrice false none
      (some { ticker := some { lastQuote := some {}, dayC := some 100, lastTradeP := some 100 } }) =
      some 100 :=
  ⟨c2_price_resolution.1 false none c2Snap (some 999),
   c2_price_resolution.2 100 (some 100) (by decide)⟩

/-- C3 counterexample: a strike set of eleven positive strikes with the
known, non-null price 0: the handler's truthiness guard treats the zero
price like an unknown one, so the selection is the identity (all eleven
strikes, 11 among them), while the claim's union of the windows at price 0
drops strike 11. -/
theorem c3_strike_window_cex :
    selectTargetStrikes c3Strikes (some 0) = c3Strikes ∧
    (11 : ℚ) ∈ selectTargetStrikes c3Strikes (some 0) ∧
    (11 : ℚ) ∉ windowStrikes c3Strikes 0 := by
  refine ⟨rfl, by decide, by decide⟩

/-- C3 (amended): for every strike set and every known non-null *and
non-zero* price, the selection returns exactly the union of the first 10
strikes below the price (taken descending) and the first 10 strikes at or
above it (taken ascending) — hence at most 20 strikes, a strike equal to
the price classified at-or-above; when the price is null *or zero* the
selection is the identity and the full strike set passes through. -/
theorem c3_strike_window (l : List ℚ) (p : ℚ) (hp : p ≠ 0) :
    (∀ s : ℚ, s ∈ selectTargetStrikes l (some p) ↔
      s ∈ (sortDescQ (l.filter (fun x => decide (x < p)))).take 10 ∨
      s ∈ (sortAscQ (l.filter (fun x => decide (p ≤ x)))).take 10) ∧
    (selectTargetStrikes l (some p)).length ≤ 20 ∧
    selectTargetStrikes l none = l ∧
    selectTargetStrikes l (some 0) = l := by
  refine ⟨?_, ?_, rfl, rfl⟩
  · intro s
    simp only [selectTargetStrikes, if_neg hp, windowStrikes, sortAscQ]
    rw [mem_sortAscBy, List.mem_append]
  · simp only [selectTargetStrikes, if_neg hp, windowStrikes, sortAscQ]
    rw [length_sortAscBy, List.length_append]
    exact Nat.add_le_add (List.length_take_le _ _) (List.length_take_le _ _)

/-- C3 witness: the window charaterisation instantiated at the eleven
concrete strikes and price 5 (membership of strike 11 and the size bound),
plus the identity cases. -/
theorem c3_strike_window_witness :
    ((11 : ℚ) ∈ selectTargetStrikes c3Strikes (some 5) ↔
      (11 : ℚ) ∈ (sortDescQ (c3Strikes.filter (fun x => decide (x < 5)))).take 10 ∨
      (11 : ℚ) ∈ (sortAscQ (c3Strikes.filter (fun x => decide ((5 : ℚ) ≤ x)))).take 10) ∧
    (selectTargetStrikes c3Strikes (some 5)).length ≤ 20 :=
  ⟨(c3_strike_window c3Strikes 5 (by decide)).1 11,
   (c3_strike_window c3Strikes 5 (by decide)).2.1⟩

/-- C1 counterexample: a two-page feed whose first page already contains the
single target contract identity but carries a continuation cursor; the
pagination loop of `server.js` lines 184–222 issues a second page request
anyway, violating the early-exit condition the claim asserts. -/
theorem c1_pagination_cex : ¬ specEarlyExitStop c1pages ["O:AAPL1"] := by
  intro h
  exact absurd (h 1 (by decide) (by decide)) (by decide)

/-- C1 (amended): the pagination loop never consults the target-key set; as
long as a page succeeds and carries a continuation cursor (and the 100-page
ceiling is not reached), the next page request is issued — even when every
target key has already been observed among the first page's results. -/
theorem c1_pagination_no_early_exit (pages : Nat → SnapshotPage) (targets : List String)
    (hcov : ∀ t ∈ targets, t ∈ snapshotKeys (firstPagesResults pages 1))
    (hok : (pages 0).ok = true) (hnext : (pages 0).hasNext = true) :
    2 ≤ (paginateSnapshots pages).2 := by
  have hpos : 1 ≤ (pagGo pages (0 + 1) 99).2 := pagGo_pos pages (0 + 1) 99 (by omega)
  have hstep : (pagGo pages 0 (99 + 1)).2 = (pagGo pages (0 + 1) 99).2 + 1 := by
    rw [pagGo]
    simp only [hok, hnext]
    rcases h : pagGo pages (0 + 1) 99 with ⟨res, n⟩
    rcases res with e | rest <;> simp
  unfold paginateSnapshots maxPages
  rw [show (100 : Nat) = 99 + 1 from rfl, hstep]
  omega

/-- C1 witness: the amended statement instantiated at the concrete two-page
feed whose target key is fully covered by page 0. -/
theorem c1_pagination_no_early_exit_witness : 2 ≤ (paginateSnapshots c1pages).2 :=
  c1_pagination_no_early_exit c1pages ["O:AAPL1"] (by decide) (by decide) (by decide)

/-- Both branches of the pipeline tail end in a descending sort by strike. -/
theorem finalizeOptions_pairwise (ct : String) (mo : Bool) (up : Option ℚ)
    (l : List OptionSnapshot) :
    (finalizeOptions ct mo up l).Pairwise
      (fun a b => b.strikePrice ≤ a.strikePrice) := by
  unfold finalizeOptions
  rcases up with _ | p
  · exact sortDescBy_pairwise _ _
  · dsimp only
    split
    · unfold windowEnriched
      exact sortDescBy_pairwise _ _
    · exact sortDescBy_pairwise _ _

/-- C7: for every request on which the handler succeeds, the final sequence
of enriched options is sorted by strike price in descending order. -/
theorem c7_options_sorted_descending (q : ReqQuery) (k : Option String) (mo : Bool)
    (w : World) (opts : List EnrichedOption) (upv : JSVal) (mo' : Bool)
    (h : (optionsHandler q k mo w).1 = HandlerResult.success opts upv mo') :
    opts.Pairwise (fun a b => b.strikePrice ≤ a.strikePrice) := by
  unfold optionsHandler at h
  split at h
  · simp at h
  · split at h
    · simp at h
    · dsimp only at h
      split at h
      · simp at h
      · split at h
        · rw [Prod.fst] at h
          injection h with h1 h2
          subst h1
          exact List.Pairwise.nil
        · rw [Prod.fst] at h
          injection h with h1 h2
          subst h1
          exact finalizeOptions_pairwise _ _ _ _

/-- C7 witness: a concrete successful request with two snapshots; the
returned list is the sorted enriched pair. -/
theorem c7_options_sorted_descending_witness :
    (successOptions (optionsHandler cQuery (some "KEY") false cWorld2).1).Pairwise
      (fun a b => b.strikePrice ≤ a.strikePrice) :=
  c7_options_sorted_descending cQuery (some "KEY") false cWorld2
    (successOptions (optionsHandler cQuery (some "KEY") false cWorld2).1)
    (JSVal.num 100) false rfl

/-- C6 counterexample: a concrete successful request (status 200) whose JSON
body has no `underlying` key — the success bodies of `server.js` lines
327–333 and 446–450 carry only `options`, `underlyingPrice`, `marketOpen`. -/
theorem c6_response_shape_cex :
    (renderResponse (optionsHandler cQuery (some "KEY") false cWorld).1).1 = 200 ∧
    "underlying" ∉ topKeys (renderResponse (optionsHandler cQuery (some "KEY") false cWorld).1).2 := by
  constructor
  · rfl
  · decide

/-- Every success outcome of the handler carries the JS value of the
resolved underlying price. -/
theorem optionsHandler_success_val (q : ReqQuery) (k : Option String) (mo : Bool)
    (w : World) (opts : List EnrichedOption) (upv : JSVal) (mo' : Bool)
    (h : (optionsHandler q k mo w).1 = HandlerResult.success opts upv mo') :
    upv = resolveUnderlyingPriceVal mo w.prevResp w.stockSnapResp := by
  unfold optionsHandler at h
  split at h
  · simp at h
  · split at h
    · simp at h
    · dsimp only at h
      split at h
      · simp at h
      · split at h
        · rw [Prod.fst] at h
          injection h with h1 h2 h3
          exact h2.symm
        · rw [Prod.fst] at h
          injection h with h1 h2 h3
          exact h2.symm

/-- C6 (amended): every successful (status-200) response of the options
endpoint has the top-level keys `options`, `underlyingPrice`, `marketOpen`
when the resolved underlying price is a number or the initial `null`, and
only `options`, `marketOpen` when the variable ended as `undefined`
(`results[0].c` absent and the snapshot fallback not reassigning, the key
being dropped by `JSON.stringify`); in every case there is no `underlying`
field. -/
theorem c6_response_shape (q : ReqQuery) (k : Option String) (mo : Bool) (w : World)
    (h : (renderResponse (optionsHandler q k mo w).1).1 = 200) :
    topKeys (renderResponse (optionsHandler q k mo w).1).2 =
      (if resolveUnderlyingPriceVal mo w.prevResp w.stockSnapResp = JSVal.undef
       then ["options", "marketOpen"]
       else ["options", "underlyingPrice", "marketOpen"]) ∧
    "underlying" ∉ topKeys (renderResponse (optionsHandler q k mo w).1).2 := by
  rcases hr : (optionsHandler q k mo w).1 with _ | _ | _ | ⟨opts, upv, mo'⟩ <;>
    rw [hr] at h
  · simp [renderResponse] at h
  · simp [renderResponse] at h
  · simp [renderResponse] at h
  · have hv := optionsHandler_success_val q k mo w opts upv mo' hr
    rw [← hv]
    rcases upv with _ | _ | x <;>
      simp [renderResponse, topKeys, underlyingPriceField]

/-- C6 witness: the amended key characterisation applied at two concrete
successful requests — one whose resolved price is the number 100 (all three
keys present) and one whose resolution ends as `undefined` (the
`underlyingPrice` key dropped). -/
theorem c6_response_shape_witness :
    topKeys (renderResponse (optionsHandler cQuery (some "KEY") true cWorld).1).2 =
      ["options", "underlyingPrice", "marketOpen"] ∧
    topKeys (renderResponse (optionsHandler cQuery (some "KEY") false cWorldU).1).2 =
      ["options", "marketOpen"] :=
  ⟨((c6_response_shape cQuery (some "KEY") true cWorld rfl).1).trans (by decide),
   ((c6_response_shape cQuery (some "KEY") false cWorldU rfl).1).trans (by decide)⟩

/-- The query of the C8 counterexample: the ticker parameter is missing. -/
def c8Query : ReqQuery := { expirationDate := some "2026-01-09", contractType := some "call" }

/-- C8 counterexample: a request with a missing ticker *and* an unconfigured
API key answers 400, not the 500 the claim's second universal demands — the
parameter guard runs first. -/
theorem c8_guards_cex :
    (renderResponse (optionsHandler c8Query none false cWorld).1).1 = 400 ∧
    (renderResponse (optionsHandler c8Query none false cWorld).1).1 ≠ 500 := by
  constructor
  · rfl
  · decide

/-- C8 (amended): a request with any required parameter missing (or empty)
answers 400 with zero upstream requests; a request with all parameters
present and the API key unconfigured answers 500 with zero upstream
requests. -/
theorem c8_guards :
    (∀ (q : ReqQuery) (k : Option String) (mo : Bool) (w : World),
      (strTruthy q.ticker = false ∨ strTruthy q.expirationDate = false ∨
        strTruthy q.contractType = false) →
      (renderResponse (optionsHandler q k mo w).1).1 = 400 ∧
        (optionsHandler q k mo w).2 = 0) ∧
    (∀ (q : ReqQuery) (mo : Bool) (w : World),
      strTruthy q.ticker = true → strTruthy q.expirationDate = true →
      strTruthy q.contractType = true →
      (renderResponse (optionsHandler q none mo w).1).1 = 500 ∧
        (optionsHandler q none mo w).2 = 0) := by
  constructor
  · intro q k mo w h
    unfold optionsHandler
    rw [if_pos h]
    exact ⟨rfl, rfl⟩
  · intro q mo w h1 h2 h3
    unfold optionsHandler
    rw [if_neg (by simp [h1, h2, h3])]
    rw [if_pos (by simp [strTruthy])]
    exact ⟨rfl, rfl⟩

/-- C8 witness: both guard behaviours at concrete requests — missing ticker
gives 400 without upstream calls, good parameters with no key give 500
without upstream calls. -/
theorem c8_guards_witness :
    ((renderResponse (optionsHandler c8Query (some "KEY") false cWorld).1).1 = 400 ∧
      (optionsHandler c8Query (some "KEY") false cWorld).2 = 0) ∧
    ((renderResponse (optionsHandler cQuery none false cWorld).1).1 = 500 ∧
      (optionsHandler cQuery none false cWorld).2 = 0) :=
  ⟨c8_guards.1 c8Query (some "KEY") false cWorld (by decide),
   c8_guards.2 cQuery false cWorld (by decide) (by decide) (by decide)⟩

/-- C9: for every request that passes both guards and whose pagination
succeeds, if no contracts or snapshots match the query (the filtered
snapshot list is empty), the handler succeeds with an empty options
sequence and the rendered status is 200, not an error. -/
theorem c9_empty_result_ok (q : ReqQuery) (k : Option String) (mo : Bool) (w : World)
    (snaps : List OptionSnapshot)
    (h1 : strTruthy q.ticker = true) (h2 : strTruthy q.expirationDate = true)
    (h3 : strTruthy q.contractType = true) (h4 : strTruthy k = true)
    (hok : (paginateSnapshots w.pages).1 = Except.ok snaps)
    (hempty : filterSnapshots snaps
      (contractsAfterWindow w.contractsResp
        (resolveUnderlyingPrice mo w.prevResp w.stockSnapResp))
      (q.expirationDate.getD "") (q.contractType.getD "") = []) :
    (optionsHandler q k mo w).1 =
      HandlerResult.success [] (resolveUnderlyingPriceVal mo w.prevResp w.stockSnapResp) mo ∧
    (renderResponse (optionsHandler q k mo w).1).1 = 200 := by
  have hmain : (optionsHandler q k mo w).1 =
      HandlerResult.success [] (resolveUnderlyingPriceVal mo w.prevResp w.stockSnapResp) mo := by
    unfold optionsHandler
    rw [if_neg (by simp [h1, h2, h3]), if_neg (by simp [h4])]
    dsimp only
    rw [hok]
    dsimp only
    rw [hempty]
    simp
  exact ⟨hmain, by rw [hmain]; rfl⟩

/-- C9 witness: a concrete passing request whose single snapshot page is
empty, so nothing matches; the handler returns a 200 success with an empty
options list. -/
theorem c9_empty_result_ok_witness :
    (optionsHandler cQuery (some "KEY") false cWorld).1 =
      HandlerResult.success []
        (resolveUnderlyingPriceVal false cWorld.prevResp cWorld.stockSnapResp) false ∧
    (renderResponse (optionsHandler cQuery (some "KEY") false cWorld).1).1 = 200 :=
  c9_empty_result_ok cQuery (some "KEY") false cWorld []
    (by decide) (by decide) (by decide) (by decide) rfl rfl
